import Mathlib

/-!
Shallow embedding of the `hedra-batch-generator` repository
(`src/config.py`, `src/hedra_api.py`, `src/hedra_batch.py`).

The remote HTTP service is modelled by explicit response values handed to
each operation; the local filesystem is a partial map from path strings to
byte lists; Python exceptions are modelled by an explicit error type and
`Except`; wall-clock time is modelled by integer-valued clock samples
(the comparisons against the integral timeout are exact, and nothing else
about Python's float clock is interpreted).
-/

namespace HedraBatch

/-! Section: config.py -/

/-- Constant `config.HEDRA_API_BASE_URL` (config.py line 13). -/
def HEDRA_API_BASE_URL : String := "https://api.hedra.ai/v1"

/-- Constant `config.API_TIMEOUT` (config.py line 15): maximum seconds to wait for
video generation. -/
def API_TIMEOUT : ℤ := 300

/-- Constant `config.POLL_INTERVAL` (config.py line 17): seconds between status checks. -/
def POLL_INTERVAL : ℤ := 10

/-- Constant `config.IMAGE_PATTERN` (config.py line 21). -/
def IMAGE_PATTERN : String := "*.png"

/-- Constant `config.AUDIO_PATTERN` (config.py line 23). -/
def AUDIO_PATTERN : String := "*.wav"

/-- Constant `config.ENV_API_KEY` (config.py line 33). -/
def ENV_API_KEY : String := "HEDRA_API_KEY"

/-! Section: the Python exception model

`HedraAPIError` is the client's own exception class (hedra_api.py lines
21-26).  `keyError` models Python's built-in `KeyError`, raised by a
subscript `d['k']` on a dict lacking key `'k'`; `valueError` models
`ValueError`; `nameError` models `NameError`, raised when an unbound name
is evaluated.  Only `requests.exceptions.RequestException` (and its
subclasses) is caught by the `except` clauses in hedra_api.py, so the
latter three all propagate out of the client's methods. -/

inductive PyExc where
  | hedraAPIError (msg : String)
  | keyError (key : String)
  | valueError (msg : String)
  | nameError (name : String)
  deriving DecidableEq, Repr

/-- Whether an exception value is the client-error kind `HedraAPIError`. -/
def PyExc.isHedraAPIError : PyExc → Bool
  | .hedraAPIError _ => true
  | _ => false

/-! Section: the HTTP response model

A call through `requests` either raises a `RequestException` before a
response exists (connection failure or timeout — both are subclasses of
`requests.exceptions.RequestException`), or yields a response with a
numeric status code.  For the JSON endpoints the body is modelled as the
parsed JSON object: an association list of string fields.  `errStr` is the
string of the `requests.exceptions.HTTPError` that `raise_for_status()`
constructs for that response (its exact text is produced inside the
`requests` library, so the model carries it as data). -/

inductive ReqOutcome where
  | connectionError (excStr : String)
  | timeoutError (excStr : String)
  | httpResp (status : ℕ) (errStr : String) (fields : List (String × String))
  deriving DecidableEq, Repr

/-- A response to the streaming download GET: as `ReqOutcome`, but the body
is a raw byte stream (bytes as naturals) rather than JSON. -/
inductive DlOutcome where
  | connectionError (excStr : String)
  | timeoutError (excStr : String)
  | httpResp (status : ℕ) (errStr : String) (body : List ℕ)
  deriving DecidableEq, Repr

/-- Model of `response.raise_for_status()`: raises `HTTPError` exactly for 4xx and
5xx status codes. -/
def raiseForStatus (status : ℕ) : Bool :=
  decide (400 ≤ status) && decide (status < 600)

/-! Section: HedraAPI.__init__ (hedra_api.py lines 39-56) -/

/-- The constructed client state: `self.api_key` and `self.headers`
(hedra_api.py lines 49, 53-56). -/
structure HedraClient where
  api_key : String
  headers : List (String × String)
  deriving DecidableEq, Repr

/-- Python's `a or b` on optional strings: `a` unless `a` is falsy
(`None` or the empty string), in which case `b`. -/
def pyOrStr (a b : Option String) : Option String :=
  match a with
  | none => b
  | some s => if s = "" then b else some s

/-- Python truthiness of an optional string: `None` and `""` are falsy. -/
def pyTruthy : Option String → Bool
  | none => false
  | some s => s ≠ ""

/-- Constructor `HedraAPI.__init__(api_key)` (hedra_api.py lines 39-56).
`api_key` is the optional constructor argument, `envKey` the value of the
`HEDRA_API_KEY` environment variable (`os.getenv` returns `None` when
unset).  Line 49: `self.api_key = api_key or os.getenv(config.ENV_API_KEY)`;
lines 50-51 raise `HedraAPIError` when the result is falsy; lines 53-56
build the headers dict. -/
def hedraAPI_init (api_key envKey : Option String) : Except PyExc HedraClient :=
  let key := pyOrStr api_key envKey
  if pyTruthy key = false then
    .error (.hedraAPIError
      ("API key not provided. Set HEDRA_API_KEY in .env or pass via --api_key"))
  else
    match key with
    | some s =>
        .ok { api_key := s
              headers := [("Authorization", "Bearer " ++ s),
                          ("Accept", "application/json")] }
    | none => .error (.hedraAPIError
        ("API key not provided. Set HEDRA_API_KEY in .env or pass via --api_key"))

/-! Section: HedraAPI.upload_asset, create_video, get_video_status
(hedra_api.py lines 58-136)

Each method issues exactly one request (there is no retry loop in the
source), passing `headers=self.headers`; the model returns the headers
attached to that single request together with the outcome.  The `try`
block catches only `requests.exceptions.RequestException`; the subscript
on the parsed JSON body (`response.json()['asset_id']` etc.) raises
`KeyError` when the field is absent, and `KeyError` is not a
`RequestException`, so it escapes uncaught. -/

/-- Method `HedraAPI.upload_asset(file_path)` (hedra_api.py lines 58-82), given the
outcome of its single POST to `/assets`. -/
def upload_asset (c : HedraClient) (fileName : String) (resp : ReqOutcome) :
    List (String × String) × Except PyExc String :=
  (c.headers,
    match resp with
    | .connectionError e =>
        .error (.hedraAPIError ("Failed to upload asset " ++ fileName ++ ": " ++ e))
    | .timeoutError e =>
        .error (.hedraAPIError ("Failed to upload asset " ++ fileName ++ ": " ++ e))
    | .httpResp status errStr fields =>
        if raiseForStatus status then
          .error (.hedraAPIError ("Failed to upload asset " ++ fileName ++ ": " ++ errStr))
        else
          match fields.lookup ("asset_id") with
          | some v => .ok v
          | none => .error (.keyError ("asset_id")))

/-- Method `HedraAPI.create_video(image_id, audio_id, prompt)` (hedra_api.py lines
84-113), given the outcome of its single POST to `/videos`. -/
def create_video (c : HedraClient) (resp : ReqOutcome) :
    List (String × String) × Except PyExc String :=
  (c.headers,
    match resp with
    | .connectionError e =>
        .error (.hedraAPIError ("Failed to create video: " ++ e))
    | .timeoutError e =>
        .error (.hedraAPIError ("Failed to create video: " ++ e))
    | .httpResp status errStr fields =>
        if raiseForStatus status then
          .error (.hedraAPIError ("Failed to create video: " ++ errStr))
        else
          match fields.lookup ("video_id") with
          | some v => .ok v
          | none => .error (.keyError ("video_id")))

/-- Method `HedraAPI.get_video_status(video_id)` (hedra_api.py lines 115-136),
given the outcome of its single GET. -/
def get_video_status (c : HedraClient) (resp : ReqOutcome) :
    List (String × String) × Except PyExc String :=
  (c.headers,
    match resp with
    | .connectionError e =>
        .error (.hedraAPIError ("Failed to get video status: " ++ e))
    | .timeoutError e =>
        .error (.hedraAPIError ("Failed to get video status: " ++ e))
    | .httpResp status errStr fields =>
        if raiseForStatus status then
          .error (.hedraAPIError ("Failed to get video status: " ++ errStr))
        else
          match fields.lookup ("status") with
          | some v => .ok v
          | none => .error (.keyError ("status")))

/-! Section: HedraAPI.download_video (hedra_api.py lines 138-161)

The filesystem is a partial map from path strings to byte lists.  The
method GETs the download URL with `stream=True`; only after
`raise_for_status()` succeeds is `open(output_path, 'wb')` executed
(truncating/creating the file), and the loop
`for chunk in response.iter_content(chunk_size=8192): f.write(chunk)`
writes the 8192-byte chunks of the stream in order, so the final content
is the concatenation of those chunks. -/

/-- The filesystem: paths to byte contents (`none` = no file). -/
def FS : Type := String → Option (List ℕ)

/-- Model of `response.iter_content(chunk_size)`: splits the body into successive
chunks of `csize` bytes (the last chunk may be shorter).  The fuel
argument of `iterContentAux` is set to the body length, which suffices for
any positive `csize`. -/
def iterContentAux (csize : ℕ) : ℕ → List ℕ → List (List ℕ)
  | _, [] => []
  | 0, l => [l]
  | fuel + 1, x :: xs => ((x :: xs).take csize) :: iterContentAux csize fuel ((x :: xs).drop csize)

/-- Model of `response.iter_content(chunk_size=csize)` on a fully received body. -/
def iterContent (csize : ℕ) (body : List ℕ) : List (List ℕ) :=
  iterContentAux csize body.length body

/-- Method `HedraAPI.download_video(video_id, output_path)` (hedra_api.py lines
138-161): returns the headers sent on its single GET, the outcome, and the
filesystem after the call. -/
def download_video (c : HedraClient) (outputPath : String) (resp : DlOutcome)
    (fs : FS) : List (String × String) × Except PyExc Unit × FS :=
  match resp with
  | .connectionError e =>
      (c.headers, .error (.hedraAPIError ("Failed to download video: " ++ e)), fs)
  | .timeoutError e =>
      (c.headers, .error (.hedraAPIError ("Failed to download video: " ++ e)), fs)
  | .httpResp status errStr body =>
      if raiseForStatus status then
        (c.headers, .error (.hedraAPIError ("Failed to download video: " ++ errStr)), fs)
      else
        (c.headers, .ok (),
          fun p => if p = outputPath then some (iterContent 8192 body).flatten else fs p)

/-! Section: HedraAPI.wait_for_video (hedra_api.py lines 163-184)

The loop samples `time.time()` once per iteration (line 175) *before*
fetching the status (line 178).  `start` is the `time.time()` sample taken
at line 173; `tm k` is the sample taken at iteration `k`'s elapsed-time
check (clock samples carry integer values in the model); `st k` is the status string returned by iteration `k`'s
`get_video_status` call (the model covers the executions in which every
status fetch returns a string).  The Python loop is `while True`; the
model runs it for `fuel` iterations and returns `none` if no exit was
reached within them. -/

inductive WaitOutcome where
  /-- Outcome: normal return (status completed observed, line 180). -/
  | completed
  /-- Outcome: HedraAPIError, video generation failed (line 182). -/
  | failedError
  /-- Outcome: HedraAPIError, video generation timed out (line 176). -/
  | timeoutError
  deriving DecidableEq, Repr

/-- One execution of the `wait_for_video` loop body per iteration:
timeout check first, then the status fetch. -/
def wait_for_video (start : ℤ) (tm : ℕ → ℤ) (st : ℕ → String) :
    ℕ → Option WaitOutcome
  | 0 => none
  | fuel + 1 =>
      if tm 0 - start > API_TIMEOUT then some .timeoutError
      else if st 0 = "completed" then some .completed
      else if st 0 = "failed" then some .failedError
      else wait_for_video start (fun k => tm (k + 1)) (fun k => st (k + 1)) fuel

/-- Iteration `j` of the `wait_for_video` loop neither exits nor raises:
the elapsed-time check passes and the fetched status is non-terminal. -/
def waitContinues (start : ℤ) (tm : ℕ → ℤ) (st : ℕ → String) (j : ℕ) : Prop :=
  ¬ tm j - start > API_TIMEOUT ∧ st j ≠ "completed" ∧ st j ≠ "failed"

/-- Iteration `k` of the `wait_for_video` loop exits with outcome `r`,
given that it is reached. -/
def waitExitsAt (start : ℤ) (tm : ℕ → ℤ) (st : ℕ → String) (k : ℕ) :
    WaitOutcome → Prop
  | .timeoutError => tm k - start > API_TIMEOUT
  | .completed => ¬ tm k - start > API_TIMEOUT ∧ st k = "completed"
  | .failedError => ¬ tm k - start > API_TIMEOUT ∧ st k ≠ "completed" ∧ st k = "failed"

/-! Section: hedra_batch.py, the batch driver

hedra_batch.py binds the following names at module level (imports at lines
9-17 and the four `def`s): notably, it never binds a name `logger` — unlike
hedra_api.py line 19, there is no `logger = logging.getLogger(__name__)`.
Every `logger.info(...)` / `logger.error(...)` statement in hedra_batch.py
therefore evaluates an unbound global name and raises `NameError`.  The
driver model is parameterised by the boolean fact `lb` ("a module-level
`logger` is bound"), instantiated with `loggerIsBound` computed from the
module's actual bindings. -/

/-- The names bound at module level in hedra_batch.py: the imports of lines
9-17 and the functions defined at lines 19, 36, 56, 94. -/
def hedraBatchModuleNames : List String :=
  ["os", "sys", "logging", "argparse", "Path", "Optional",
   "HedraAPI", "HedraAPIError", "config",
   "setup_logging", "find_image_file", "process_audio_file", "main"]

/-- Whether the global name `logger` used throughout hedra_batch.py is
bound in that module. -/
def loggerIsBound : Bool := hedraBatchModuleNames.contains ("logger")

/-- Model of `str(e)` for the modelled exceptions: `HedraAPIError` and `ValueError`
stringify to their message, `NameError` to "name '...' is not defined",
`KeyError` to the `repr` of the missing key. -/
def PyExc.str : PyExc → String
  | .hedraAPIError m => m
  | .valueError m => m
  | .nameError n => "name " ++ n ++ " is not defined"
  | .keyError k => k

/-- Observable steps of a run.  The four `call*` events are the client
methods that perform network I/O; client construction and local file
discovery perform none.  Log output is modelled as `logRecord` events
(the log file's bytes are not tracked). -/
inductive Event where
  | mkdirOutput
  | logRecord (msg : String)
  | callUploadAsset (fileName : String)
  | callCreateVideo
  | callWaitForVideo
  | callDownloadVideo (outputPath : String)
  deriving DecidableEq, Repr

/-- Whether an event is one of the client calls that performs network I/O. -/
def Event.isNetworkCall : Event → Bool
  | .callUploadAsset _ => true
  | .callCreateVideo => true
  | .callWaitForVideo => true
  | .callDownloadVideo _ => true
  | _ => false

/-- Executing `logger.info(msg)` or `logger.error(msg)` in hedra_batch.py:
if the module binds `logger` the record is emitted, otherwise evaluating
the name raises `NameError`. -/
def logCall (lb : Bool) (msg : String) : Except PyExc Event :=
  if lb then .ok (.logRecord msg) else .error (.nameError "logger")

/-- Whether a file name begins with a dot (pathlib's `*` never matches a
leading dot). -/
def startsWithDot (name : String) : Bool :=
  match name.data with
  | [] => false
  | c :: _ => c = '.'

/-- Model of `folder.glob(config.IMAGE_PATTERN)` membership for a file name:
`*.png` matches names ending in ".png" that do not begin with a dot. -/
def matchesImagePattern (name : String) : Bool :=
  (".png").data.isSuffixOf name.data && !(startsWithDot name)

/-- Model of `folder.glob(config.AUDIO_PATTERN)` membership for a file name:
`*.wav` matches names ending in ".wav" that do not begin with a dot. -/
def matchesAudioPattern (name : String) : Bool :=
  (".wav").data.isSuffixOf name.data && !(startsWithDot name)

/-- Function `find_image_file(folder)` (hedra_batch.py lines 36-54): `files` is the
folder's listing in filesystem enumeration order; the glob keeps that
order.  Zero matches and more than one match raise `ValueError`; a single
match is returned. -/
def find_image_file (folder : String) (files : List String) : Except PyExc String :=
  let png_files := files.filter (fun n => matchesImagePattern n)
  match png_files with
  | [] => .error (.valueError ("No PNG image found in " ++ folder))
  | [p] => .ok p
  | _ :: _ :: _ =>
      .error (.valueError ("Multiple PNG images found in " ++ folder ++ ". Only one is allowed."))

/-- Model of `audio_file.stem`: the file name with its last dotted suffix removed
(every name reaching it here matched `*.wav`, so it has a suffix). -/
def pathStem (name : String) : String :=
  match name.toList.reverse.dropWhile (fun c => c ≠ '.') with
  | [] => name
  | _ :: rest => String.mk rest.reverse

/-- The per-run external environment: CLI arguments, the credential
environment variable, the input folder's state, the remote service's
responses (indexed by audio-file position `n` in enumeration order), the
clock samples observed by each `wait_for_video` call, and the initial
filesystem.  `waitFuel` bounds the iterations of each polling loop that
the model runs. -/
structure RunEnv where
  inputFolder : String
  outputFolderArg : Option String
  prompt : String
  apiKeyArg : Option String
  envApiKey : Option String
  inputFolderExists : Bool
  inputFiles : List String
  imageUploadResp : ReqOutcome
  audioUploadResp : ℕ → ReqOutcome
  createResp : ℕ → ReqOutcome
  waitStart : ℕ → ℤ
  waitTm : ℕ → ℕ → ℤ
  waitSt : ℕ → ℕ → String
  waitFuel : ℕ
  downloadResp : ℕ → DlOutcome
  initialFS : FS

/-- The `except HedraAPIError` handler of `process_audio_file`
(hedra_batch.py lines 90-92): a `HedraAPIError` is logged and re-raised —
but the `logger.error` call itself raises `NameError` when `logger` is
unbound, replacing the original exception; any other exception bypasses
the handler. -/
def processExceptHandler (lb : Bool) (audioFile : String) (e : PyExc)
    (events : List Event) (fs : FS) : Except PyExc Unit × List Event × FS :=
  match e with
  | .hedraAPIError msg =>
      match logCall lb ("Error processing " ++ audioFile ++ ": " ++ msg) with
      | .error e2 => (.error e2, events, fs)
      | .ok ev => (.error (.hedraAPIError msg), events ++ [ev], fs)
  | other => (.error other, events, fs)

/-- Function `process_audio_file(api, audio_file, image_id, prompt, output_folder)`
(hedra_batch.py lines 56-92), statement by statement: log, upload audio,
log, create video, log, wait, log, download to
`output_folder / (stem + ".mp4")`, log.  Returns `none` when the polling
loop did not exit within the model's fuel. -/
def process_audio_file (lb : Bool) (c : HedraClient) (audioFile _imageId outputFolder : String)
    (audioResp createResp2 : ReqOutcome) (wStart : ℤ) (wTm : ℕ → ℤ) (wSt : ℕ → String)
    (wFuel : ℕ) (dlResp : DlOutcome) (fs : FS) :
    Option (Except PyExc Unit × List Event × FS) :=
  match logCall lb ("Processing " ++ audioFile) with
  | .error e => some (.error e, [], fs)
  | .ok ev0 =>
    let evs1 := [ev0, .callUploadAsset audioFile]
    match (upload_asset c audioFile audioResp).2 with
    | .error e => some (processExceptHandler lb audioFile e evs1 fs)
    | .ok _audio_id =>
      match logCall lb ("Uploaded audio file: " ++ audioFile) with
      | .error e => some (.error e, evs1, fs)
      | .ok ev1 =>
        let evs2 := evs1 ++ [ev1, .callCreateVideo]
        match (create_video c createResp2).2 with
        | .error e => some (processExceptHandler lb audioFile e evs2 fs)
        | .ok video_id =>
          match logCall lb ("Created video with ID: " ++ video_id) with
          | .error e => some (.error e, evs2, fs)
          | .ok ev2 =>
            let evs3 := evs2 ++ [ev2, .callWaitForVideo]
            match wait_for_video wStart wTm wSt wFuel with
            | none => none
            | some .timeoutError =>
                some (processExceptHandler lb audioFile
                  (.hedraAPIError ("Video generation timed out")) evs3 fs)
            | some .failedError =>
                some (processExceptHandler lb audioFile
                  (.hedraAPIError ("Video generation failed")) evs3 fs)
            | some .completed =>
              match logCall lb ("Video generation completed") with
              | .error e => some (.error e, evs3, fs)
              | .ok ev3 =>
                let output_file := outputFolder ++ "/" ++ pathStem audioFile ++ ".mp4"
                let evs4 := evs3 ++ [ev3, .callDownloadVideo output_file]
                match download_video c output_file dlResp fs with
                | (_, .error e, fs2) => some (processExceptHandler lb audioFile e evs4 fs2)
                | (_, .ok _, fs2) =>
                  match logCall lb ("Downloaded video to: " ++ output_file) with
                  | .error e => some (.error e, evs4, fs2)
                  | .ok ev4 => some (.ok (), evs4 ++ [ev4], fs2)

/-- The `for audio_file in audio_files:` loop of `main` (hedra_batch.py
lines 137-138), threading the event trace and filesystem; `n` is the
position of the first remaining file in enumeration order. -/
def processLoop (lb : Bool) (c : HedraClient) (imageId outputFolder : String)
    (env : RunEnv) : List String → ℕ → FS → Option (Except PyExc Unit × List Event × FS)
  | [], _, fs => some (.ok (), [], fs)
  | audioFile :: rest, n, fs =>
      match process_audio_file lb c audioFile imageId outputFolder
        (env.audioUploadResp n) (env.createResp n)
        (env.waitStart n) (env.waitTm n) (env.waitSt n) env.waitFuel
        (env.downloadResp n) fs with
      | none => none
      | some (.error e, evs, fs2) => some (.error e, evs, fs2)
      | some (.ok _, evs, fs2) =>
          match processLoop lb c imageId outputFolder env rest (n + 1) fs2 with
          | none => none
          | some (r, evs2, fs3) => some (r, evs ++ evs2, fs3)

/-- The result of one invocation of the script: the process exit code, the
exception that escaped `main` uncaught (if any), the event trace, and the
final filesystem. -/
structure RunResult where
  exitCode : ℕ
  uncaught : Option PyExc
  events : List Event
  fs : FS

/-- The body of `main`'s `try:` block (hedra_batch.py lines 122-141):
construct the client, find and upload the image, discover audio files,
process each in order. -/
def mainTryBody (lb : Bool) (env : RunEnv) (outputFolder : String) :
    Option (Except PyExc Unit × List Event × FS) :=
  match hedraAPI_init env.apiKeyArg env.envApiKey with
  | .error e => some (.error e, [], env.initialFS)
  | .ok c =>
    match find_image_file env.inputFolder env.inputFiles with
    | .error e => some (.error e, [], env.initialFS)
    | .ok image_file =>
      let evs1 := [.callUploadAsset image_file]
      match (upload_asset c image_file env.imageUploadResp).2 with
      | .error e => some (.error e, evs1, env.initialFS)
      | .ok image_id =>
        match logCall lb ("Uploaded image: " ++ image_file) with
        | .error e => some (.error e, evs1, env.initialFS)
        | .ok ev1 =>
          let audio_files := env.inputFiles.filter (fun n => matchesAudioPattern n)
          if audio_files.isEmpty then
            some (.error (.valueError ("No WAV files found in " ++ env.inputFolder)),
              evs1 ++ [ev1], env.initialFS)
          else
            match logCall lb ("Found " ++ toString audio_files.length ++
                " audio files to process") with
            | .error e => some (.error e, evs1 ++ [ev1], env.initialFS)
            | .ok ev2 =>
              match processLoop lb c image_id outputFolder env audio_files 0 env.initialFS with
              | none => none
              | some (.error e, evs, fs2) => some (.error e, evs1 ++ [ev1, ev2] ++ evs, fs2)
              | some (.ok _, evs, fs2) =>
                match logCall lb ("Batch processing completed successfully") with
                | .error e => some (.error e, evs1 ++ [ev1, ev2] ++ evs, fs2)
                | .ok ev3 => some (.ok (), evs1 ++ [ev1, ev2] ++ evs ++ [ev3], fs2)

/-- Function `main()` (hedra_batch.py lines 94-144).  Lines 110-111 resolve the
folders; line 114 raises an uncaught `ValueError` when the input folder is
missing; line 116 creates the output folder; line 119 configures logging;
line 120 logs the start banner — *outside* the `try:` block, so an
exception there escapes `main`; lines 122-141 are the `try:` body and
lines 142-144 the `except Exception` handler, which logs the error (again
a `logger` access) and calls `sys.exit(1)`.  An exception escaping `main`
terminates the interpreter with exit status 1. -/
def mainRun (lb : Bool) (env : RunEnv) : Option RunResult :=
  let outputFolder := (pyOrStr env.outputFolderArg (some env.inputFolder)).getD env.inputFolder
  if !env.inputFolderExists then
    some { exitCode := 1
           uncaught := some (.valueError ("Input folder does not exist: " ++ env.inputFolder))
           events := []
           fs := env.initialFS }
  else
    match logCall lb ("Starting Hedra AI Batch Video Generator") with
    | .error e => some { exitCode := 1, uncaught := some e
                         events := [.mkdirOutput], fs := env.initialFS }
    | .ok ev0 =>
      match mainTryBody lb env outputFolder with
      | none => none
      | some (.ok _, evs, fs2) =>
          some { exitCode := 0, uncaught := none
                 events := [.mkdirOutput, ev0] ++ evs, fs := fs2 }
      | some (.error e, evs, fs2) =>
          match logCall lb ("Batch processing failed: " ++ e.str) with
          | .error e2 => some { exitCode := 1, uncaught := some e2
                                events := [.mkdirOutput, ev0] ++ evs, fs := fs2 }
          | .ok ev9 => some { exitCode := 1, uncaught := none
                              events := [.mkdirOutput, ev0] ++ evs ++ [ev9], fs := fs2 }

/-! Section: concrete run fixtures and result projections -/

/-- A concrete constructed client (the result of `HedraAPI("k")`). -/
def exClient : HedraClient :=
  { api_key := "k"
    headers := [("Authorization", "Bearer k"), ("Accept", "application/json")] }

/-- A run environment over input folder "in" with the given file listing:
the credential is supplied, every remote call succeeds, each job reports
"completed" on its first poll well inside the timeout, and every download
body is the two bytes `[7, 7]`. -/
def happyEnv (files : List String) : RunEnv :=
  { inputFolder := "in"
    outputFolderArg := none
    prompt := "talking head"
    apiKeyArg := some "k"
    envApiKey := none
    inputFolderExists := true
    inputFiles := files
    imageUploadResp := .httpResp 200 ("") ([("asset_id", "img-1")])
    audioUploadResp := fun _ => .httpResp 200 ("") ([("asset_id", "aud-1")])
    createResp := fun _ => .httpResp 200 ("") ([("video_id", "vid-1")])
    waitStart := fun _ => 0
    waitTm := fun _ _ => 1
    waitSt := fun _ _ => "completed"
    waitFuel := 1
    downloadResp := fun _ => .httpResp 200 ("") ([7, 7])
    initialFS := fun _ => none }

/-- The environment of the end-to-end failure scenario: as `happyEnv` over
face.png, line1.wav, line2.wav, except that the second `create_video`
call (audio position 1) receives a 500 response. -/
def failSecondCreateEnv : RunEnv :=
  { happyEnv (["face.png", "line1.wav", "line2.wav"]) with
    createResp := fun n =>
      if n = 0 then .httpResp 200 ("") ([("video_id", "vid-1")])
      else .httpResp 500 ("500 Server Error") ([]) }

/-- Projection: exit code and escaped exception of a run. -/
def runExit : Option RunResult → Option (ℕ × Option PyExc)
  | none => none
  | some r => some (r.exitCode, r.uncaught)

/-- Projection: the network-performing client calls of a run, in order. -/
def runNetworkCalls : Option RunResult → Option (List Event)
  | none => none
  | some r => some (r.events.filter Event.isNetworkCall)

/-- Projection: the final contents of the file at `p` after a run. -/
def runFileAt (r : Option RunResult) (p : String) : Option (Option (List ℕ)) :=
  match r with
  | none => none
  | some res => some (res.fs p)

/-! Section: theorems -/

/-- Helper: flattening the chunks produced by `iterContentAux` with a
positive chunk size restores the byte stream, given enough fuel. -/
theorem iterContentAux_flatten (c : ℕ) :
    ∀ (fuel : ℕ) (l : List ℕ), l.length ≤ fuel →
      (iterContentAux (c + 1) fuel l).flatten = l := by
  intro fuel
  induction fuel with
  | zero =>
      intro l hl
      have h0 : l = [] := List.eq_nil_of_length_eq_zero (Nat.le_zero.mp hl)
      subst h0
      rfl
  | succ n ih =>
      intro l hl
      cases l with
      | nil => rfl
      | cons x xs =>
          have hdrop : ((x :: xs).drop (c + 1)).length ≤ n := by
            rw [List.length_drop]
            simp only [List.length_cons] at hl ⊢
            omega
          calc (iterContentAux (c + 1) (n + 1) (x :: xs)).flatten
              = ((x :: xs).take (c + 1)) ++
                  (iterContentAux (c + 1) n ((x :: xs).drop (c + 1))).flatten := by
                simp [iterContentAux]
            _ = ((x :: xs).take (c + 1)) ++ (x :: xs).drop (c + 1) := by
                rw [ih _ hdrop]
            _ = x :: xs := List.take_append_drop _ _

/-- Helper: `iter_content` chunks with the source's 8192-byte chunk size
concatenate back to the full body. -/
theorem iterContent_flatten (body : List ℕ) :
    (iterContent 8192 body).flatten = body :=
  iterContentAux_flatten 8191 body.length body (le_refl _)

/-- C1: `wait_for_video` returns normally (outcome `completed`) exactly when
some iteration first observes status "completed" after passing its
elapsed-time check against the 300-second `API_TIMEOUT`, all earlier
iterations having passed their checks and fetched non-terminal statuses;
it raises the timeout `HedraAPIError` exactly when an iteration's check
(evaluated before that iteration's status fetch) finds the elapsed time
exceeding the timeout, no earlier iteration having exited; and it raises
the failure `HedraAPIError` exactly when an iteration whose check passed
fetches status "failed", no earlier iteration having exited. -/
theorem wait_for_video_spec (start : ℤ) (tm : ℕ → ℤ) (st : ℕ → String)
    (fuel : ℕ) (r : WaitOutcome) :
    API_TIMEOUT = 300 ∧
    (wait_for_video start tm st fuel = some r ↔
      ∃ k, k < fuel ∧ (∀ j, j < k → waitContinues start tm st j) ∧
        waitExitsAt start tm st k r) := by
  refine ⟨rfl, ?_⟩
  induction fuel generalizing tm st with
  | zero =>
      simp [wait_for_video]
  | succ n ih =>
      rw [wait_for_video]
      by_cases h1 : tm 0 - start > API_TIMEOUT
      · rw [if_pos h1]
        constructor
        · intro h
          have hr : r = .timeoutError := (Option.some.inj h).symm
          subst hr
          exact ⟨0, Nat.succ_pos n, fun j hj => absurd hj (Nat.not_lt_zero j), h1⟩
        · rintro ⟨k, hk, hcont, hex⟩
          cases k with
          | zero =>
              cases r with
              | timeoutError => rfl
              | completed => exact absurd h1 hex.1
              | failedError => exact absurd h1 hex.1
          | succ m => exact absurd h1 (hcont 0 (Nat.succ_pos m)).1
      · rw [if_neg h1]
        by_cases h2 : st 0 = "completed"
        · rw [if_pos h2]
          constructor
          · intro h
            have hr : r = .completed := (Option.some.inj h).symm
            subst hr
            exact ⟨0, Nat.succ_pos n, fun j hj => absurd hj (Nat.not_lt_zero j), h1, h2⟩
          · rintro ⟨k, hk, hcont, hex⟩
            cases k with
            | zero =>
                cases r with
                | completed => rfl
                | timeoutError => exact absurd hex h1
                | failedError => exact absurd h2 hex.2.1
            | succ m => exact absurd h2 (hcont 0 (Nat.succ_pos m)).2.1
        · rw [if_neg h2]
          by_cases h3 : st 0 = "failed"
          · rw [if_pos h3]
            constructor
            · intro h
              have hr : r = .failedError := (Option.some.inj h).symm
              subst hr
              exact ⟨0, Nat.succ_pos n, fun j hj => absurd hj (Nat.not_lt_zero j), h1, h2, h3⟩
            · rintro ⟨k, hk, hcont, hex⟩
              cases k with
              | zero =>
                  cases r with
                  | failedError => rfl
                  | timeoutError => exact absurd hex h1
                  | completed => exact absurd hex.2 h2
              | succ m => exact absurd h3 (hcont 0 (Nat.succ_pos m)).2.2
          · rw [if_neg h3]
            rw [ih]
            constructor
            · rintro ⟨k, hk, hcont, hex⟩
              refine ⟨k + 1, Nat.succ_lt_succ hk, ?_, hex⟩
              intro j hj
              cases j with
              | zero => exact ⟨h1, h2, h3⟩
              | succ m => exact hcont m (Nat.lt_of_succ_lt_succ hj)
            · rintro ⟨k, hk, hcont, hex⟩
              cases k with
              | zero =>
                  cases r with
                  | timeoutError => exact absurd hex h1
                  | completed => exact absurd hex.2 h2
                  | failedError => exact absurd hex.2.2 h3
              | succ m =>
                  refine ⟨m, Nat.lt_of_succ_lt_succ hk, ?_, hex⟩
                  intro j hj
                  exact hcont (j + 1) (Nat.succ_lt_succ hj)

/-- C6: a successful `download_video` (response received, non-error status)
returns normally and updates the filesystem at exactly `outPath` with the
concatenation, in order, of the 8 KiB chunks of the streamed body — which
equals the body itself — overwriting whatever was there, and leaves every
other path untouched. -/
theorem download_video_writes_stream (c : HedraClient) (outPath : String) (fs : FS)
    (status : ℕ) (errStr : String) (body : List ℕ)
    (hok : raiseForStatus status = false) :
    (download_video c outPath (.httpResp status errStr body) fs).2.1 = .ok () ∧
    (download_video c outPath (.httpResp status errStr body) fs).2.2 outPath =
      some ((iterContent 8192 body).flatten) ∧
    (iterContent 8192 body).flatten = body ∧
    ∀ p, p ≠ outPath →
      (download_video c outPath (.httpResp status errStr body) fs).2.2 p = fs p := by
  refine ⟨?_, ?_, iterContent_flatten body, ?_⟩
  · simp [download_video, hok]
  · simp [download_video, hok]
  · intro p hp
    simp [download_video, hok, hp]

/-- Witness for C6 at a concrete input: a 200 response with body
`[1, 2, 3]` ends with exactly those bytes at the requested path. -/
theorem download_video_writes_stream_witness :
    raiseForStatus 200 = false ∧
    (download_video exClient ("out.mp4") (.httpResp 200 ("") ([1, 2, 3]))
      (fun _ => none)).2.2 ("out.mp4") = some [1, 2, 3] := by
  have h := download_video_writes_stream exClient ("out.mp4") (fun _ => none)
    200 ("") ([1, 2, 3]) rfl
  refine ⟨rfl, ?_⟩
  rw [h.2.1, h.2.2.1]

/-- C10: when the download GET fails in transport (connection failure or
timeout) or returns a non-2xx status, `download_video` raises the
client-error kind and the filesystem is returned bit-for-bit unchanged:
the output file is opened only after `raise_for_status()` has passed. -/
theorem download_video_error_preserves_fs (c : HedraClient) (outPath : String)
    (fs : FS) (resp : DlOutcome)
    (hfail : (∃ e, resp = .connectionError e) ∨ (∃ e, resp = .timeoutError e) ∨
      (∃ s es b, resp = .httpResp s es b ∧ raiseForStatus s = true)) :
    (∃ m, (download_video c outPath resp fs).2.1 = .error (.hedraAPIError m)) ∧
    (download_video c outPath resp fs).2.2 = fs := by
  rcases hfail with ⟨e, rfl⟩ | ⟨e, rfl⟩ | ⟨s, es, b, rfl, hs⟩
  · exact ⟨⟨_, rfl⟩, rfl⟩
  · exact ⟨⟨_, rfl⟩, rfl⟩
  · constructor
    · exact ⟨"Failed to download video: " ++ es, by simp [download_video, hs]⟩
    · simp [download_video, hs]

/-- Witness for C10 at a concrete input: a connection failure leaves the
filesystem untouched. -/
theorem download_video_error_preserves_fs_witness :
    (∃ m, (download_video exClient ("o.mp4") (.connectionError ("boom"))
      (fun _ => none)).2.1 = .error (.hedraAPIError m)) ∧
    (download_video exClient ("o.mp4") (.connectionError ("boom"))
      (fun _ => none)).2.2 = (fun _ => none) :=
  download_video_error_preserves_fs exClient ("o.mp4") (fun _ => none) _
    (Or.inl ⟨"boom", rfl⟩)

/-- C7: with no argument and no environment value the constructor raises
the client-error kind (and, the model making no request, before any
network I/O); with a non-empty argument, or no argument and a non-empty
environment value, construction succeeds and the client's headers carry
the bearer token — and every one of the four operations attaches exactly
those headers to its request. -/
theorem hedraAPI_init_auth (k v : String) (env2 : Option String)
    (hk : k ≠ "") (hv : v ≠ "") :
    hedraAPI_init none none =
      .error (.hedraAPIError
        ("API key not provided. Set HEDRA_API_KEY in .env or pass via --api_key")) ∧
    hedraAPI_init (some k) env2 =
      .ok { api_key := k
            headers := [("Authorization", "Bearer " ++ k),
                        ("Accept", "application/json")] } ∧
    hedraAPI_init none (some v) =
      .ok { api_key := v
            headers := [("Authorization", "Bearer " ++ v),
                        ("Accept", "application/json")] } ∧
    (∀ (c : HedraClient) (f : String) (r : ReqOutcome),
      (upload_asset c f r).1 = c.headers) ∧
    (∀ (c : HedraClient) (r : ReqOutcome), (create_video c r).1 = c.headers) ∧
    (∀ (c : HedraClient) (r : ReqOutcome), (get_video_status c r).1 = c.headers) ∧
    (∀ (c : HedraClient) (p : String) (r : DlOutcome) (fs : FS),
      (download_video c p r fs).1 = c.headers) := by
  refine ⟨rfl, ?_, ?_, fun c f r => rfl, fun c r => rfl, fun c r => rfl, ?_⟩
  · simp [hedraAPI_init, pyOrStr, pyTruthy, hk]
  · simp [hedraAPI_init, pyOrStr, pyTruthy, hv]
  · intro c p r fs
    cases r with
    | connectionError e => rfl
    | timeoutError e => rfl
    | httpResp s es b => by_cases hs : raiseForStatus s <;> simp [download_video, hs]

/-- Witness for C7 at concrete inputs: an explicit key and an
environment-only key both construct a client with the bearer header. -/
theorem hedraAPI_init_auth_witness :
    hedraAPI_init (some ("argkey")) none =
      .ok { api_key := "argkey"
            headers := [("Authorization", "Bearer " ++ "argkey"),
                        ("Accept", "application/json")] } ∧
    hedraAPI_init none (some ("envkey")) =
      .ok { api_key := "envkey"
            headers := [("Authorization", "Bearer " ++ "envkey"),
                        ("Accept", "application/json")] } := by
  have h := hedraAPI_init_auth ("argkey") ("envkey") none (by decide) (by decide)
  exact ⟨h.2.1, h.2.2.1⟩

/-- C9: an empty-string `api_key` argument behaves exactly as passing no
argument: the constructor result coincides with the no-argument result for
every environment state, succeeding with the environment value when that
is set and non-empty and raising the client-error kind when the variable
is unset or empty. -/
theorem hedraAPI_init_empty_arg_fallback (env2 : Option String) (v : String)
    (hv : v ≠ "") :
    hedraAPI_init (some ("")) env2 = hedraAPI_init none env2 ∧
    hedraAPI_init (some ("")) (some v) =
      .ok { api_key := v
            headers := [("Authorization", "Bearer " ++ v),
                        ("Accept", "application/json")] } ∧
    hedraAPI_init (some ("")) none =
      .error (.hedraAPIError
        ("API key not provided. Set HEDRA_API_KEY in .env or pass via --api_key")) ∧
    hedraAPI_init (some ("")) (some ("")) =
      .error (.hedraAPIError
        ("API key not provided. Set HEDRA_API_KEY in .env or pass via --api_key")) := by
  refine ⟨rfl, ?_, rfl, rfl⟩
  simp [hedraAPI_init, pyOrStr, pyTruthy, hv]

/-- Witness for C9 at a concrete input: the empty argument falls back to
the environment value "envkey". -/
theorem hedraAPI_init_empty_arg_fallback_witness :
    hedraAPI_init (some ("")) (some ("envkey")) =
      .ok { api_key := "envkey"
            headers := [("Authorization", "Bearer " ++ "envkey"),
                        ("Accept", "application/json")] } :=
  (hedraAPI_init_empty_arg_fallback (some ("envkey")) ("envkey") (by decide)).2.1

/-- C3 counterexample: a 200 response whose well-formed JSON body lacks
the expected `asset_id` field makes `upload_asset` raise `KeyError` — a
kind that is not the client-error kind `HedraAPIError` — refuting the
claim that every malformed-body failure surfaces as the single
client-error kind. -/
theorem upload_asset_missing_field_keyError :
    (upload_asset exClient ("img.png") (.httpResp 200 ("") ([]))).2 =
      Except.error (PyExc.keyError ("asset_id")) ∧
    (PyExc.keyError ("asset_id")).isHedraAPIError = false :=
  ⟨rfl, rfl⟩

/-- C3 amended: for each of `upload_asset`, `create_video`,
`get_video_status` — each of which issues exactly one request, with no
retry — a connection failure, a timeout, or an HTTP 4xx/5xx response
raises the client-error kind `HedraAPIError` carrying a human-readable
message; but a success response whose well-formed JSON body lacks the
expected field raises `KeyError` for that field (not the client-error
kind), and one carrying the field returns it. -/
theorem api_error_taxonomy_amended (c : HedraClient) (f e es : String)
    (sErr sOk : ℕ) (fl : List (String × String)) (v : String)
    (hsErr : raiseForStatus sErr = true) (hsOk : raiseForStatus sOk = false) :
    ((upload_asset c f (.connectionError e)).2 =
      .error (.hedraAPIError ("Failed to upload asset " ++ f ++ ": " ++ e))) ∧
    ((upload_asset c f (.timeoutError e)).2 =
      .error (.hedraAPIError ("Failed to upload asset " ++ f ++ ": " ++ e))) ∧
    ((upload_asset c f (.httpResp sErr es fl)).2 =
      .error (.hedraAPIError ("Failed to upload asset " ++ f ++ ": " ++ es))) ∧
    (fl.lookup ("asset_id") = none →
      (upload_asset c f (.httpResp sOk es fl)).2 = .error (.keyError ("asset_id"))) ∧
    (fl.lookup ("asset_id") = some v →
      (upload_asset c f (.httpResp sOk es fl)).2 = .ok v) ∧
    ((create_video c (.connectionError e)).2 =
      .error (.hedraAPIError ("Failed to create video: " ++ e))) ∧
    ((create_video c (.timeoutError e)).2 =
      .error (.hedraAPIError ("Failed to create video: " ++ e))) ∧
    ((create_video c (.httpResp sErr es fl)).2 =
      .error (.hedraAPIError ("Failed to create video: " ++ es))) ∧
    (fl.lookup ("video_id") = none →
      (create_video c (.httpResp sOk es fl)).2 = .error (.keyError ("video_id"))) ∧
    (fl.lookup ("video_id") = some v →
      (create_video c (.httpResp sOk es fl)).2 = .ok v) ∧
    ((get_video_status c (.connectionError e)).2 =
      .error (.hedraAPIError ("Failed to get video status: " ++ e))) ∧
    ((get_video_status c (.timeoutError e)).2 =
      .error (.hedraAPIError ("Failed to get video status: " ++ e))) ∧
    ((get_video_status c (.httpResp sErr es fl)).2 =
      .error (.hedraAPIError ("Failed to get video status: " ++ es))) ∧
    (fl.lookup ("status") = none →
      (get_video_status c (.httpResp sOk es fl)).2 = .error (.keyError ("status"))) ∧
    (fl.lookup ("status") = some v →
      (get_video_status c (.httpResp sOk es fl)).2 = .ok v) := by
  refine ⟨rfl, rfl, ?_, fun h => ?_, fun h => ?_, rfl, rfl, ?_, fun h => ?_, fun h => ?_,
    rfl, rfl, ?_, fun h => ?_, fun h => ?_⟩ <;>
    simp [upload_asset, create_video, get_video_status, hsErr, hsOk, *]

/-- Witness for the C3 amended theorem at concrete inputs: a connection
failure surfaces as `HedraAPIError`, as does a 500 response. -/
theorem api_error_taxonomy_amended_witness :
    raiseForStatus 500 = true ∧ raiseForStatus 200 = false ∧
    (upload_asset exClient ("img.png") (.connectionError ("conn refused"))).2 =
      .error (.hedraAPIError ("Failed to upload asset img.png: conn refused")) ∧
    (create_video exClient (.httpResp 500 ("500 Server Error") ([]))).2 =
      .error (.hedraAPIError ("Failed to create video: 500 Server Error")) := by
  obtain ⟨h1, -, -, -, -, -, -, h8, -⟩ :=
    api_error_taxonomy_amended exClient ("img.png") ("conn refused")
      ("500 Server Error") 500 200 ([]) ("v") (by decide) (by decide)
  exact ⟨by decide, by decide, h1, h8⟩

/-- C2: the driver cannot perform the claimed upload/create/wait/download
cycles — hedra_batch.py never binds `logger`, so every run (here: a folder
with one image, two audio files, and all remote calls succeeding) dies
with an uncaught `NameError` at the first log statement (line 120), with
exit status 1 and zero network calls.  Were `logger` bound (`lb = true`),
the same run would exit 0 after exactly one image upload and one
upload/create/wait/download cycle per audio file, in enumeration order,
as the claim describes. -/
theorem mainRun_crashes_no_uploads :
    loggerIsBound = false ∧
    runExit (mainRun loggerIsBound (happyEnv (["face.png", "line1.wav", "line2.wav"]))) =
      some (1, some (.nameError ("logger"))) ∧
    runNetworkCalls (mainRun loggerIsBound
      (happyEnv (["face.png", "line1.wav", "line2.wav"]))) = some [] ∧
    runExit (mainRun true (happyEnv (["face.png", "line1.wav", "line2.wav"]))) =
      some (0, none) ∧
    runNetworkCalls (mainRun true (happyEnv (["face.png", "line1.wav", "line2.wav"]))) =
      some [.callUploadAsset ("face.png"),
            .callUploadAsset ("line1.wav"), .callCreateVideo, .callWaitForVideo,
            .callDownloadVideo ("in/line1.mp4"),
            .callUploadAsset ("line2.wav"), .callCreateVideo, .callWaitForVideo,
            .callDownloadVideo ("in/line2.mp4")] := by
  refine ⟨by decide, by decide, by decide, by decide, by decide⟩

/-- C4: `find_image_file` itself raises the claimed `ValueError`s for zero
and for multiple images, but no run ever reaches it: with `logger` unbound
the run dies with `NameError` at line 120, before `find_image_file` and
before any network call (so the claim's observable "fails before any
network call" holds, by the wrong mechanism).  Were `logger` bound, the
run would fail via `find_image_file` with exit 1 and zero network calls,
as the claim describes. -/
theorem find_image_file_validation_run_crashes :
    find_image_file ("in") (["a.wav"]) =
      .error (.valueError ("No PNG image found in in")) ∧
    find_image_file ("in") (["a.png", "b.png"]) =
      .error (.valueError ("Multiple PNG images found in in. Only one is allowed.")) ∧
    loggerIsBound = false ∧
    runExit (mainRun loggerIsBound (happyEnv (["a.wav"]))) =
      some (1, some (.nameError ("logger"))) ∧
    runNetworkCalls (mainRun loggerIsBound (happyEnv (["a.wav"]))) = some [] ∧
    runExit (mainRun true (happyEnv (["a.wav"]))) = some (1, none) ∧
    runNetworkCalls (mainRun true (happyEnv (["a.wav"]))) = some [] ∧
    runExit (mainRun true (happyEnv (["a.png", "b.png"]))) = some (1, none) ∧
    runNetworkCalls (mainRun true (happyEnv (["a.png", "b.png"]))) = some [] := by
  refine ⟨rfl, rfl, by decide, by decide, by decide, by decide, by decide,
    by decide, by decide⟩

/-- C5: for a folder with one image and zero audio files the claim says the
run fails after the image upload; in fact the run dies with the uncaught
`NameError` on `logger` before any upload at all.  Were `logger` bound,
the run would fail with exit 1 after exactly the one image upload and
before any `create_video`, as the claim describes. -/
theorem no_audio_run_crashes_before_upload :
    loggerIsBound = false ∧
    runExit (mainRun loggerIsBound (happyEnv (["face.png"]))) =
      some (1, some (.nameError ("logger"))) ∧
    runNetworkCalls (mainRun loggerIsBound (happyEnv (["face.png"]))) = some [] ∧
    runExit (mainRun true (happyEnv (["face.png"]))) = some (1, none) ∧
    runNetworkCalls (mainRun true (happyEnv (["face.png"]))) =
      some [.callUploadAsset ("face.png")] := by
  refine ⟨by decide, by decide, by decide, by decide, by decide⟩

/-- C8: in the scenario where the second audio file's `create_video`
receives a non-success response, the claim expects the first file's output
on disk, the error logged, and no further calls; in fact the run dies at
startup with the uncaught `NameError` on `logger`: no call is made and no
output file exists.  Were `logger` bound, the run would match the claim:
exit 1, calls stopping at the second `create_video`, line1.mp4 written and
line2.mp4 absent. -/
theorem second_create_failure_run_crashes :
    loggerIsBound = false ∧
    runExit (mainRun loggerIsBound failSecondCreateEnv) =
      some (1, some (.nameError ("logger"))) ∧
    runNetworkCalls (mainRun loggerIsBound failSecondCreateEnv) = some [] ∧
    runFileAt (mainRun loggerIsBound failSecondCreateEnv) ("in/line1.mp4") =
      some none ∧
    runExit (mainRun true failSecondCreateEnv) = some (1, none) ∧
    runNetworkCalls (mainRun true failSecondCreateEnv) =
      some [.callUploadAsset ("face.png"),
            .callUploadAsset ("line1.wav"), .callCreateVideo, .callWaitForVideo,
            .callDownloadVideo ("in/line1.mp4"),
            .callUploadAsset ("line2.wav"), .callCreateVideo] ∧
    runFileAt (mainRun true failSecondCreateEnv) ("in/line1.mp4") =
      some (some [7, 7]) ∧
    runFileAt (mainRun true failSecondCreateEnv) ("in/line2.mp4") = some none := by
  refine ⟨by decide, by decide, by decide, by decide, by decide, by decide, by decide,
    by decide⟩

end HedraBatch
